import Mathlib

/-!
Verification of the Lysithea pattern library against its specification.

The repository ships a catalog of Express/PostgreSQL code-pattern files
(routes, query functions, middleware, schema, seeds) together with a
specification of the pattern-matching / adaptation / validation engine that
consumes them.  The concrete JavaScript pattern files are embedded here
shallowly (JS string/number coercions made explicit); the engine components
(Catalog, Matcher/Ranker, Quality Validator, Orchestrator) are not present in
the repository source, so they are modelled from the specification where a
claim needs them, as marked in the corresponding doc comments.
-/

namespace Lysithea

/-! ## JavaScript primitive semantics

The pattern files rely on `parseInt`, truthiness (`x || d`), `Math.min` and
`String.prototype.split`.  These are embedded explicitly. -/

/-- Leading decimal digits of a character list, as a number; `none` when the
list does not start with a digit (this is `parseInt` returning `NaN`). -/
def jsDigits (cs : List Char) : Option Nat :=
  let ds := cs.takeWhile Char.isDigit
  if ds.isEmpty then none
  else some (ds.foldl (fun a c => a * 10 + (c.toNat - 48)) 0)

/-- JavaScript `parseInt(s)` (radix 10): skip leading whitespace, optional
sign, then leading digits; `none` models `NaN`. Trailing garbage is ignored,
exactly as in JS. -/
def jsParseInt (s : String) : Option Int :=
  let cs := s.data.dropWhile (fun c => c = ' ' ∨ c = '\t' ∨ c = '\n' ∨ c = '\r')
  match cs with
  | '-' :: rest => (jsDigits rest).map (fun n => -(n : Int))
  | '+' :: rest => (jsDigits rest).map (fun n => (n : Int))
  | _ => (jsDigits cs).map (fun n => (n : Int))

/-- `parseInt` applied to a possibly-absent value: `parseInt(undefined)` is
`NaN`, modelled as `none`. -/
def jsParseIntOpt (q : Option String) : Option Int :=
  q.bind jsParseInt

/-- JavaScript `x || d` where `x` is a number-or-NaN: `NaN` and `0` are falsy
and fall through to the default. -/
def jsOrInt (x : Option Int) (d : Int) : Int :=
  match x with
  | none => d
  | some n => if n = 0 then d else n

/-- Truthiness of a possibly-absent string: `undefined` and `""` are falsy. -/
def jsTruthyStr (x : Option String) : Bool :=
  match x with
  | none => false
  | some s => s ≠ ""

/-- JavaScript `x || d` on a possibly-absent string. -/
def jsOrStr (x : Option String) (d : String) : String :=
  if jsTruthyStr x then x.getD "" else d

/-- The string an `Option String` holds (used only under a truthiness guard,
where it agrees with the JS value). -/
def jsStrVal (x : Option String) : String :=
  x.getD ""

/-- Split a character list at every occurrence of a separator character
(JavaScript `String.prototype.split` with a one-character separator). -/
def splitOnChar (sep : Char) : List Char → List (List Char)
  | [] => [[]]
  | c :: rest =>
      match splitOnChar sep rest with
      | [] => [[c]]
      | h :: t => if c = sep then [] :: h :: t else (c :: h) :: t

/-- JavaScript `s.split(sep)` for a one-character separator. -/
def jsSplit (s : String) (sep : Char) : List String :=
  (splitOnChar sep s.data).map String.mk

/-- ASCII lower-casing of one character. -/
def lowerChar (c : Char) : Char :=
  if 'A' ≤ c ∧ c ≤ 'Z' then Char.ofNat (c.toNat + 32) else c

/-- ASCII lower-casing of a string. -/
def lowerStr (s : String) : String :=
  String.mk (s.data.map lowerChar)

/-- Does the second list start with the first? -/
def startsWithSeq : List Char → List Char → Bool
  | [], _ => true
  | _ :: _, [] => false
  | p :: ps, c :: cs => p = c && startsWithSeq ps cs

/-- Does the pattern occur as a contiguous subsequence? -/
def containsSeq (pat : List Char) : List Char → Bool
  | [] => startsWithSeq pat []
  | c :: cs => startsWithSeq pat (c :: cs) || containsSeq pat cs

/-! ## Routes/get-users-auth.js — pagination parameter handling

Embeds lines 71–77 of the GET `/users` handler:
`const page = parseInt(req.query.page) || 1;`
`const limit = Math.min(parseInt(req.query.limit) || 20, 100);`
`const offset = (page - 1) * limit;` -/

/-- Effective page for GET `/users`: `parseInt(req.query.page) || 1`. -/
def getUsersPage (pageQ : Option String) : Int :=
  jsOrInt (jsParseIntOpt pageQ) 1

/-- Effective limit for GET `/users`:
`Math.min(parseInt(req.query.limit) || 20, 100)`. -/
def getUsersLimit (limitQ : Option String) : Int :=
  min (jsOrInt (jsParseIntOpt limitQ) 20) 100

/-- Effective offset for GET `/users`: `(page - 1) * limit`. -/
def getUsersOffset (pageQ limitQ : Option String) : Int :=
  (getUsersPage pageQ - 1) * getUsersLimit limitQ

/-! ## middleware/auth.js — authenticateToken -/

/-- Result of `jwt.verify(token, secret)`: a decoded payload, or a thrown
error for an invalid/expired token. -/
inductive VerifyResult (P : Type) where
  | ok (payload : P)
  | fail
deriving DecidableEq

/-- Observable outcome of running an Express middleware on one request:
response status/code if it responded, the value stored in `req.user`, and
whether `next()` was invoked. -/
structure MiddlewareOutcome (P : Type) where
  status : Option Nat
  errorCode : Option String
  reqUser : Option P
  nextCalled : Bool
deriving DecidableEq

/-- `const token = authHeader && authHeader.split(' ')[1]` followed by the
`if (!token)` guard: yields the bearer token when it is a truthy string.
An absent header, a header without a second space-separated part, and an
empty second part all yield `none`. -/
def extractBearer (h : Option String) : Option String :=
  match h with
  | none => none
  | some s =>
      match (jsSplit s ' ').drop 1 with
      | [] => none
      | t :: _ => if t = "" then none else some t

/-- The `authenticateToken` middleware, parameterized by the behaviour of
`jwt.verify` on the request's token. -/
def authenticateToken {P : Type} (verify : String → VerifyResult P)
    (h : Option String) : MiddlewareOutcome P :=
  match extractBearer h with
  | none =>
      { status := some 401, errorCode := some "MISSING_TOKEN",
        reqUser := none, nextCalled := false }
  | some tok =>
      match verify tok with
      | .fail =>
          { status := some 403, errorCode := some "INVALID_TOKEN",
            reqUser := none, nextCalled := false }
      | .ok p =>
          { status := none, errorCode := none,
            reqUser := some p, nextCalled := true }

/-! ## Routes/get-users-auth.js — full route (middleware + handler) -/

/-- A user row as touched by the route handlers (timestamps omitted; they are
never read by any branch a claim depends on). -/
structure UserRow where
  uid : Nat
  email : String
  username : String
  passwordHash : String
  isDeleted : Bool
deriving DecidableEq

/-- Pagination metadata object returned by the GET `/users` handler. -/
structure Pagination where
  page : Int
  limit : Int
  total : Int
  totalPages : Int
  hasNext : Bool
  hasPrev : Bool
deriving DecidableEq

/-- Observable JSON response of the GET `/users` route. -/
structure GetUsersResponse where
  status : Nat
  pagination : Option Pagination
  errorCode : Option String
  dataCount : Nat
deriving DecidableEq

/-- The GET `/users` handler body (after `authenticateToken` called `next()`).
The two `db.query` calls are modelled by their results; `none` for either
models a thrown error, landing in the `catch` block (500). -/
def getUsersHandler (pageQ limitQ : Option String)
    (dbRows : Option (List UserRow)) (dbTotal : Option Int) : GetUsersResponse :=
  let page := getUsersPage pageQ
  let limit := getUsersLimit limitQ
  match dbRows, dbTotal with
  | some rows, some total =>
      let totalPages : Int := ⌈(total : ℚ) / (limit : ℚ)⌉
      { status := 200,
        pagination := some
          { page := page, limit := limit, total := total,
            totalPages := totalPages,
            hasNext := page < totalPages, hasPrev := 1 < page },
        errorCode := none,
        dataCount := rows.length }
  | _, _ =>
      { status := 500, pagination := none,
        errorCode := some "FETCH_USERS_ERROR", dataCount := 0 }

/-- The composed GET `/users` route: `authenticateToken` first; its response
is final unless it calls `next()`, in which case the handler runs. -/
def getUsersRoute {P : Type} (verify : String → VerifyResult P)
    (h : Option String) (pageQ limitQ : Option String)
    (dbRows : Option (List UserRow)) (dbTotal : Option Int) : GetUsersResponse :=
  let mw := authenticateToken verify h
  if mw.nextCalled then getUsersHandler pageQ limitQ dbRows dbTotal
  else
    { status := mw.status.getD 500, pagination := none,
      errorCode := mw.errorCode, dataCount := 0 }

/-! ## Shared validation helpers of the POST/PUT routes -/

/-- Characters the JS `\s` class matches (the ones relevant to header/body
strings). -/
def isJsWhitespace (c : Char) : Bool :=
  c = ' ' ∨ c = '\t' ∨ c = '\n' ∨ c = '\r' ∨ c = '\x0c' ∨ c = '\x0b'

/-- `emailRegex.test(email)` for `/^[^\s@]+@[^\s@]+\.[^\s@]+$/`:
exactly one `@`; a nonempty whitespace-free local part; a domain part that is
whitespace-free and contains a `.` with nonempty text on both sides. -/
def emailRegexTest (s : String) : Bool :=
  match jsSplit s '@' with
  | [a, b] =>
      a ≠ "" && a.data.all (fun c => !isJsWhitespace c)
        && b.data.all (fun c => !isJsWhitespace c)
        && (let parts := jsSplit b '.'
            decide (2 ≤ parts.length)
              && parts.head? ≠ some "" && parts.getLast? ≠ some "")
  | _ => false

/-! ## Database operations issued by the route handlers

Each `db.query` call of the POST `/users` and PUT `/users/:id` handlers is
recorded in an execution trace, tagged with the values it binds. -/

/-- The distinct `db.query` calls of the POST and PUT handlers. -/
inductive DbOp where
  | selectUserById (id : Int)
  | selectUserByEmailOrUsername (e u : String)
  | selectDuplicateExcludingId (e u : String) (id : Int)
  | insertUser (e u ph : String)
  | updateUserFields (e u : Option String) (id : Int)
deriving DecidableEq

/-- Whether an operation mutates the users table (INSERT/UPDATE). -/
def DbOp.isMutation : DbOp → Bool
  | insertUser .. => true
  | updateUserFields .. => true
  | _ => false

/-- Whether an operation is an existence/duplicate SELECT. -/
def DbOp.isExistenceCheck : DbOp → Bool
  | selectUserById .. => true
  | selectUserByEmailOrUsername .. => true
  | selectDuplicateExcludingId .. => true
  | _ => false

/-- Every mutation in the trace is preceded (strictly earlier) by at least
one existence-check query. -/
def mutationsGuardedAux (seen : Bool) : List DbOp → Bool
  | [] => true
  | op :: rest =>
      (if op.isMutation then seen else true)
        && mutationsGuardedAux (seen || op.isExistenceCheck) rest

/-- Trace discipline: no mutation before some existence check ran. -/
def mutationsGuarded (t : List DbOp) : Bool :=
  mutationsGuardedAux false t

/-- Result of running a route handler against an in-memory users table:
response status and error code, the table afterwards, and the trace of
`db.query` calls in execution order. -/
structure HandlerResult where
  status : Nat
  errorCode : Option String
  db : List UserRow
  trace : List DbOp
deriving DecidableEq

/-! ## routes/post-users-auth.js — POST `/users` handler -/

/-- The POST `/users` handler body (after authentication): field presence
check, email regex, password length, duplicate check
(`SELECT id FROM users WHERE email = $1 OR username = $2`), then the
parameterized INSERT.  `newId` stands for the SERIAL id the database would
assign. -/
def postUsersHandler (db : List UserRow) (newId : Nat)
    (email username password : Option String) : HandlerResult :=
  if !jsTruthyStr email || !jsTruthyStr username || !jsTruthyStr password then
    { status := 400, errorCode := some "MISSING_FIELDS", db := db, trace := [] }
  else
    let e := jsStrVal email
    let u := jsStrVal username
    let p := jsStrVal password
    if !emailRegexTest e then
      { status := 400, errorCode := some "INVALID_EMAIL", db := db, trace := [] }
    else if p.length < 8 then
      { status := 400, errorCode := some "INVALID_PASSWORD", db := db, trace := [] }
    else
      let dupQ := DbOp.selectUserByEmailOrUsername e u
      let dups := db.filter (fun r => r.email = e ∨ r.username = u)
      if 0 < dups.length then
        { status := 409, errorCode := some "DUPLICATE_USER",
          db := db, trace := [dupQ] }
      else
        { status := 201, errorCode := none,
          db := db ++ [⟨newId, e, u, p, false⟩],
          trace := [dupQ, DbOp.insertUser e u p] }

/-! ## routes/put-user-auth.js — PUT `/users/:id` handler -/

/-- A value bound to a positional SQL parameter. -/
inductive SqlValue where
  | str (s : String)
  | int (i : Int)
deriving DecidableEq

/-- The dynamic UPDATE builder of the PUT `/users/:id` handler (lines
138–166): `updates`/`values` arrays grown per provided field, `paramCount`
threading, `updated_at = NOW()` appended, the user id pushed last, and the
final statement assembled with `updates.join(", ")`.  Returns the SQL text
together with the bound parameter values. -/
def buildUpdateQuery (email username : Option String) (userId : Int) :
    String × List SqlValue :=
  let s0 : List String × List SqlValue × Nat := ([], [], 1)
  let s1 :=
    if jsTruthyStr email then
      (s0.1 ++ ["email = $" ++ toString s0.2.2],
       s0.2.1 ++ [SqlValue.str (jsStrVal email)], s0.2.2 + 1)
    else s0
  let s2 :=
    if jsTruthyStr username then
      (s1.1 ++ ["username = $" ++ toString s1.2.2],
       s1.2.1 ++ [SqlValue.str (jsStrVal username)], s1.2.2 + 1)
    else s1
  let updates := s2.1 ++ ["updated_at = NOW()"]
  let values := s2.2.1 ++ [SqlValue.int userId]
  ("UPDATE users SET " ++ String.intercalate ", " updates
     ++ " WHERE id = $" ++ toString s2.2.2
     ++ " RETURNING id, email, username, created_at, updated_at",
   values)

/-- Semantic effect of the built UPDATE on one row: provided fields replaced,
others kept (`updated_at` is not part of `UserRow`). -/
def applyUpdate (email username : Option String) (userId : Int)
    (r : UserRow) : UserRow :=
  if (r.uid : Int) = userId then
    { r with
      email := if jsTruthyStr email then jsStrVal email else r.email,
      username := if jsTruthyStr username then jsStrVal username else r.username }
  else r

/-- The PUT `/users/:id` handler body (after authentication): id parse,
field presence, optional email regex, existence check, duplicate check
excluding the row itself, then the dynamically built parameterized UPDATE. -/
def putUserHandler (db : List UserRow) (idParam : String)
    (email username : Option String) : HandlerResult :=
  match jsParseInt idParam with
  | none =>
      { status := 400, errorCode := some "INVALID_ID", db := db, trace := [] }
  | some userId =>
      if !jsTruthyStr email && !jsTruthyStr username then
        { status := 400, errorCode := some "MISSING_UPDATE_FIELDS",
          db := db, trace := [] }
      else if jsTruthyStr email && !emailRegexTest (jsStrVal email) then
        { status := 400, errorCode := some "INVALID_EMAIL",
          db := db, trace := [] }
      else
        let q1 := DbOp.selectUserById userId
        let found := db.filter (fun r => (r.uid : Int) = userId)
        if found.length = 0 then
          { status := 404, errorCode := some "USER_NOT_FOUND",
            db := db, trace := [q1] }
        else
          let e' := jsOrStr email ""
          let u' := jsOrStr username ""
          let q2 := DbOp.selectDuplicateExcludingId e' u' userId
          let dups := db.filter
            (fun r => (r.email = e' ∨ r.username = u') ∧ (r.uid : Int) ≠ userId)
          -- `if (email || username)` guard of the source; always taken here
          -- (the 400 MISSING_UPDATE_FIELDS branch already excluded the rest)
          if jsTruthyStr email || jsTruthyStr username then
            if 0 < dups.length then
              { status := 409, errorCode := some "DUPLICATE_USER",
                db := db, trace := [q1, q2] }
            else
              { status := 200, errorCode := none,
                db := db.map (applyUpdate email username userId),
                trace := [q1, q2, DbOp.updateUserFields email username userId] }
          else
            { status := 200, errorCode := none,
              db := db.map (applyUpdate email username userId),
              trace := [q1, DbOp.updateUserFields email username userId] }

/-! ## The SQL statements issued by the pattern catalog

Every `db.query` call in the route and query-function patterns, as a function
from the request-derived values to the SQL text plus its bound positional
parameters.  The SQL texts are transcribed verbatim (template-literal
newlines and indentation included). -/

/-- Request-derived inputs a pattern may consume: body fields, the `:id` URL
parameter, pagination query parameters, and a direct integer argument for the
query-function patterns that take an id. -/
structure ReqVals where
  email : Option String
  username : Option String
  password : Option String
  idParam : String
  page : Option String
  limit : Option String
  argId : Int
deriving DecidableEq

/-- Two request inputs have the same shape when the same optional fields are
present (truthy); the SQL text of every issued query may depend only on the
shape, never on the carried values. -/
def sameShape (v w : ReqVals) : Prop :=
  jsTruthyStr v.email = jsTruthyStr w.email
    ∧ jsTruthyStr v.username = jsTruthyStr w.username

/-- GET `/users` list query. -/
def qRouteListUsers (v : ReqVals) : String × List SqlValue :=
  ("SELECT id, email, username, created_at FROM users ORDER BY created_at DESC LIMIT $1 OFFSET $2",
   [SqlValue.int (getUsersLimit v.limit), SqlValue.int (getUsersOffset v.page v.limit)])

/-- GET `/users` count query. -/
def qRouteCountUsers (_ : ReqVals) : String × List SqlValue :=
  ("SELECT COUNT(*) as total FROM users", [])

/-- GET `/users/:id` fetch query. -/
def qRouteGetUserById (v : ReqVals) : String × List SqlValue :=
  ("SELECT id, email, username, created_at FROM users WHERE id = $1",
   [SqlValue.int ((jsParseInt v.idParam).getD 0)])

/-- POST `/users` duplicate check. -/
def qRoutePostDupCheck (v : ReqVals) : String × List SqlValue :=
  ("SELECT id FROM users WHERE email = $1 OR username = $2",
   [SqlValue.str (jsStrVal v.email), SqlValue.str (jsStrVal v.username)])

/-- POST `/users` INSERT. -/
def qRoutePostInsert (v : ReqVals) : String × List SqlValue :=
  ("INSERT INTO users (email, username, password_hash, created_at) VALUES ($1, $2, $3, NOW()) RETURNING id, email, username, created_at",
   [SqlValue.str (jsStrVal v.email), SqlValue.str (jsStrVal v.username),
    SqlValue.str (jsStrVal v.password)])

/-- PUT `/users/:id` existence check (also the DELETE route's). -/
def qRouteSelectById (v : ReqVals) : String × List SqlValue :=
  ("SELECT id FROM users WHERE id = $1",
   [SqlValue.int ((jsParseInt v.idParam).getD 0)])

/-- PUT `/users/:id` duplicate check excluding the row itself. -/
def qRoutePutDupCheck (v : ReqVals) : String × List SqlValue :=
  ("SELECT id FROM users WHERE (email = $1 OR username = $2) AND id != $3",
   [SqlValue.str (jsOrStr v.email ""), SqlValue.str (jsOrStr v.username ""),
    SqlValue.int ((jsParseInt v.idParam).getD 0)])

/-- PUT `/users/:id` dynamically assembled UPDATE. -/
def qRoutePutUpdate (v : ReqVals) : String × List SqlValue :=
  buildUpdateQuery v.email v.username ((jsParseInt v.idParam).getD 0)

/-- DELETE `/users/:id` soft delete. -/
def qRouteSoftDelete (v : ReqVals) : String × List SqlValue :=
  ("UPDATE users SET is_deleted = true, deleted_at = NOW() WHERE id = $1 RETURNING id, deleted_at",
   [SqlValue.int ((jsParseInt v.idParam).getD 0)])

/-- queries/create.js — `createUser`. -/
def qFnCreateUser (v : ReqVals) : String × List SqlValue :=
  ("\n    INSERT INTO users (email, username, password_hash, created_at)\n    VALUES ($1, $2, $3, NOW())\n    RETURNING *\n  ",
   [SqlValue.str (jsStrVal v.email), SqlValue.str (jsStrVal v.username),
    SqlValue.str (jsStrVal v.password)])

/-- queries/get-all.js — `getUsers`. -/
def qFnGetUsers (_ : ReqVals) : String × List SqlValue :=
  ("SELECT * FROM users", [])

/-- queries/get-by-field.js — `getUsersByEmail`. -/
def qFnGetUsersByEmail (v : ReqVals) : String × List SqlValue :=
  ("SELECT * FROM users WHERE email = $1", [SqlValue.str (jsStrVal v.email)])

/-- queries/get-by-id.js — `getUserById`. -/
def qFnGetUserById (v : ReqVals) : String × List SqlValue :=
  ("SELECT * FROM users WHERE id = $1", [SqlValue.int v.argId])

/-- queries/update.js — `updateUser`. -/
def qFnUpdateUser (v : ReqVals) : String × List SqlValue :=
  ("\n    UPDATE users\n    SET email = $1, username = $2, updated_at = NOW()\n    WHERE id = $3\n    RETURNING *\n  ",
   [SqlValue.str (jsStrVal v.email), SqlValue.str (jsStrVal v.username),
    SqlValue.int v.argId])

/-- queries/delete.js — `deleteUser` (soft delete). -/
def qFnDeleteUser (v : ReqVals) : String × List SqlValue :=
  ("\n    UPDATE users\n    SET is_deleted = true, deleted_at = NOW()\n    WHERE id = $1\n    RETURNING id\n  ",
   [SqlValue.int v.argId])

/-- queries/get-with-joins.js — `getOrdersWithDetails`. -/
def qFnGetOrdersWithDetails (_ : ReqVals) : String × List SqlValue :=
  ("\n    SELECT\n      orders.id,\n      orders.total_amount,\n      orders.order_status,\n      orders.created_date,\n      customers.id AS customer_id,\n      customers.company_name,\n      customers.contact_name,\n      customers.email AS customer_email\n    FROM orders\n    LEFT JOIN customers ON orders.customer_id = customers.id\n  ",
   [])

/-- queries/get-by-id-with-join — `getOrderByIdWithDetails`. -/
def qFnGetOrderByIdWithDetails (v : ReqVals) : String × List SqlValue :=
  ("\n    SELECT\n      orders.id,\n      orders.total_amount,\n      orders.order_status,\n      orders.created_date,\n      customers.id AS customer_id,\n      customers.company_name,\n      customers.contact_name,\n      customers.email AS customer_email\n    FROM orders\n    LEFT JOIN customers ON orders.customer_id = customers.id\n    WHERE orders.id = $1\n  ",
   [SqlValue.int v.argId])

/-- queries/get-by-field-with-join.js — `getOrdersByCustomerIdWithDetails`. -/
def qFnGetOrdersByCustomerId (v : ReqVals) : String × List SqlValue :=
  ("\n    SELECT\n      orders.id,\n      orders.total_amount,\n      orders.order_status,\n      orders.created_date,\n      customers.id AS customer_id,\n      customers.company_name,\n      customers.contact_name,\n      customers.email AS customer_email\n    FROM orders\n    LEFT JOIN customers ON orders.customer_id = customers.id\n    WHERE orders.customer_id = $1\n  ",
   [SqlValue.int v.argId])

/-- database seed file — per-user INSERT (the timestamp parameter is bound
positionally as well; its value is not request derived). -/
def qSeedInsertUser (v : ReqVals) : String × List SqlValue :=
  ("INSERT INTO users (email, username, password_hash, created_at) VALUES ($1, $2, $3, $4)",
   [SqlValue.str (jsStrVal v.email), SqlValue.str (jsStrVal v.username),
    SqlValue.str (jsStrVal v.password), SqlValue.int v.argId])

/-- Every SQL statement a catalog pattern issues. -/
def catalogIssuedQueries : List (ReqVals → String × List SqlValue) :=
  [qRouteListUsers, qRouteCountUsers, qRouteGetUserById, qRoutePostDupCheck,
   qRoutePostInsert, qRouteSelectById, qRoutePutDupCheck, qRoutePutUpdate,
   qRouteSoftDelete, qFnCreateUser, qFnGetUsers, qFnGetUsersByEmail,
   qFnGetUserById, qFnUpdateUser, qFnDeleteUser, qFnGetOrdersWithDetails,
   qFnGetOrderByIdWithDetails, qFnGetOrdersByCustomerId, qSeedInsertUser]

/-! ## Engine data model

Modelled from the spec: the pattern-matching / validation engine (spec §3–§4)
is described by the specification and the roadmap but its implementation is
not among the repository's source files; the definitions below follow the
spec's words. -/

/-- Modelled from the spec: the operation enum of §3 (`PatternRecord`). -/
inductive Operation where
  | create
  | readOne
  | readMany
  | update
  | delete
  | auth
  | other
deriving DecidableEq

/-- Modelled from the spec: the capability tags of §3 (`PatternRecord`). -/
inductive Capability where
  | authRequired
  | pagination
  | parameterizedSql
  | duplicateCheck
  | softDelete
  | errorHandling
deriving DecidableEq

/-- Modelled from the spec: a cataloged pattern record (§3). -/
structure PatternRecord where
  pid : String
  domain : String
  operation : Operation
  capabilities : List Capability
  template : String
  slots : List String
deriving DecidableEq

/-- Modelled from the spec: the structured interpretation of a prompt (§3),
with the caller-specified target domain of §4.3. -/
structure RequestQuery where
  resource : String
  operation : Operation
  requiredCapabilities : List Capability
  targetDomain : String
deriving DecidableEq

/-! ## Slot scanning and catalog load (spec §4.1) -/

/-- Left-brace and right-brace characters of the slot syntax. -/
def braceOpen : Char := '\x7b'

/-- Right brace. -/
def braceClose : Char := '\x7d'

/-- Scan a character list for slot references of the form brace, name,
brace; fuel-driven so that the definition reduces in the kernel (fuel equal
to the list length always suffices: each step consumes at least one
character). -/
def scanSlotsAux : Nat → List Char → List String
  | 0, _ => []
  | _ + 1, [] => []
  | fuel + 1, c :: rest =>
      if c = braceOpen then
        let nm := rest.takeWhile (fun d => d ≠ braceClose)
        String.mk nm :: scanSlotsAux fuel ((rest.dropWhile (fun d => d ≠ braceClose)).drop 1)
      else scanSlotsAux fuel rest

/-- All slot names referenced in a template body, in order of occurrence. -/
def slotsReferenced (s : String) : List String :=
  scanSlotsAux s.data.length s.data

/-- Modelled from the spec: the load-time slot invariant of §3 — the
template references exactly the declared slots, no more, no fewer. -/
def slotsOk (p : PatternRecord) : Bool :=
  decide ((∀ s ∈ slotsReferenced p.template, s ∈ p.slots)
    ∧ (∀ s ∈ p.slots, s ∈ slotsReferenced p.template))

/-- Modelled from the spec: `load` (§4.1) — fails with
`CatalogIntegrityError` if any template references an undeclared slot, a
declared slot is unreferenced, or two patterns share an id; otherwise
publishes the record list as the immutable catalog snapshot. -/
def loadCatalog (ps : List PatternRecord) : Except String (List PatternRecord) :=
  if ps.all slotsOk && decide (ps.map (fun p => p.pid)).Nodup then
    Except.ok ps
  else
    Except.error "CatalogIntegrityError"

/-! ## Quality Validator (spec §4.5) -/

/-- Modelled from the spec: an adapted, resource-specialized artifact (§3). -/
structure AdaptedArtifact where
  sourcePatternId : String
  body : String
  capabilitiesInherited : List Capability
deriving DecidableEq

/-- Modelled from the spec: the outcome of quality checking (§3). -/
structure ValidationReport where
  passed : Bool
  score : ℚ
  violations : List (Capability × String)
deriving DecidableEq

/-- Modelled from the spec: `validate` (§4.5), parameterized by the static
capability detectors operating on the artifact body.  `score` is the number
of satisfied required capabilities over the number of required capabilities;
`passed` iff the score is 1. -/
def validate (detect : String → Capability → Bool) (a : AdaptedArtifact)
    (required : List Capability) : ValidationReport :=
  let sat := required.filter (fun c => detect a.body c)
  let score : ℚ := if required.isEmpty then 1 else (sat.length : ℚ) / (required.length : ℚ)
  { passed := decide (score = 1),
    score := score,
    violations := (required.filter (fun c => !detect a.body c)).map
      (fun c => (c, "capability not detected in artifact body")) }

/-! ## Matcher/Ranker (spec §4.3) -/

/-- Modelled from the spec: a ranked outcome of matching (§3), extended with
the exact-operation flag and the catalog insertion index that the §3
tie-break rule orders by. -/
structure MatchResult where
  patternId : String
  score : ℚ
  missingCapabilities : List Capability
  exactOp : Bool
  idx : Nat
deriving DecidableEq

/-- Modelled from the spec: the CRUD family of §4.3's `same_crud_family`. -/
def Operation.isCrud : Operation → Bool
  | .create => true
  | .readOne => true
  | .readMany => true
  | .update => true
  | .delete => true
  | _ => false

/-- Modelled from the spec: the §4.3 score — 0.6 times the operation match
component (1 exact, 0.4 same CRUD family, else 0) plus 0.4 times the
capability coverage (1 when nothing is required). -/
def scoreOf (q : RequestQuery) (p : PatternRecord) : ℚ :=
  let opScore : ℚ :=
    if p.operation = q.operation then 1
    else if p.operation.isCrud && q.operation.isCrud then 4/10
    else 0
  let capScore : ℚ :=
    if q.requiredCapabilities.isEmpty then 1
    else ((q.requiredCapabilities.filter (fun c => p.capabilities.contains c)).length : ℚ)
      / (q.requiredCapabilities.length : ℚ)
  (6/10) * opScore + (4/10) * capScore

/-- The match result for one candidate at its catalog insertion index. -/
def matchResultOf (q : RequestQuery) (i : Nat) (p : PatternRecord) : MatchResult :=
  { patternId := p.pid,
    score := scoreOf q p,
    missingCapabilities :=
      q.requiredCapabilities.filter (fun c => !p.capabilities.contains c),
    exactOp := p.operation = q.operation,
    idx := i }

/-- Sort key realizing the §3 total order: score descending, then exact
operation match, then fewer missing capabilities, then insertion order. -/
def rankKey (m : MatchResult) : ℚ ×ₗ (Nat ×ₗ (Nat ×ₗ Nat)) :=
  toLex (-m.score, toLex ((if m.exactOp then 0 else 1),
    toLex (m.missingCapabilities.length, m.idx)))

/-- The ranking order on match results. -/
def rankLE (a b : MatchResult) : Prop :=
  rankKey a ≤ rankKey b

instance : DecidableRel rankLE :=
  fun a b => inferInstanceAs (Decidable (rankKey a ≤ rankKey b))

instance : IsTotal MatchResult rankLE :=
  ⟨fun a b => le_total (rankKey a) (rankKey b)⟩

instance : IsTrans MatchResult rankLE :=
  ⟨fun _ _ _ h h' => le_trans h h'⟩

/-- Modelled from the spec: `rank` (§4.3) — filter to the caller-specified
target domain, score, exclude zero-score results, sort per the §3 order. -/
def rank (q : RequestQuery) (catalog : List PatternRecord) : List MatchResult :=
  let cands := (catalog.enum.filter (fun ip => ip.2.domain = q.targetDomain)).map
    (fun ip => matchResultOf q ip.1 ip.2)
  List.insertionSort rankLE (cands.filter (fun m => 0 < m.score))

/-! ## Orchestrator (spec §4.6) -/

/-- One adapt-and-validate attempt's outcome. -/
structure AttemptOutcome where
  artifact : AdaptedArtifact
  report : ValidationReport
deriving DecidableEq

/-- Modelled from the spec: terminal states of the §4.6 state machine. -/
inductive OrchestratorOutcome where
  | accepted (o : AttemptOutcome)
  | exhausted (o : AttemptOutcome)
  | rejected (e : String)
deriving DecidableEq

/-- The adapt/validate attempts made for one ranked pattern: the initial
attempt plus up to `maxRepair` repair attempts, in order. -/
def attemptsFor (attempt : MatchResult → Nat → AttemptOutcome) (maxRepair : Nat)
    (m : MatchResult) : List AttemptOutcome :=
  (List.range (maxRepair + 1)).map (attempt m)

/-- Keep the better-scoring of two attempt outcomes (first wins ties). -/
def betterOf (x y : AttemptOutcome) : AttemptOutcome :=
  if x.report.score < y.report.score then y else x

/-- Track the best-scoring attempt seen so far. -/
def updBest : Option AttemptOutcome → AttemptOutcome → Option AttemptOutcome
  | none, y => some y
  | some x, y => some (betterOf x y)

/-- Modelled from the spec: the §4.6 Adapting/Validating cycle over the
ranked list.  Each pattern is attempted up to the repair bound; the first
passing artifact is `accepted`; when the ranked list is exhausted the
best-scoring artifact seen is returned as `exhausted`; an initially empty
ranked list is `rejected` with `NoPatternFoundError`. -/
def orchestrateFrom (attempt : MatchResult → Nat → AttemptOutcome)
    (maxRepair : Nat) : List MatchResult → Option AttemptOutcome → OrchestratorOutcome
  | [], none => .rejected "NoPatternFoundError"
  | [], some b => .exhausted b
  | m :: rest, best =>
      let tries := attemptsFor attempt maxRepair m
      match tries.find? (fun o => o.report.passed) with
      | some o => .accepted o
      | none => orchestrateFrom attempt maxRepair rest (tries.foldl updBest best)

/-- Modelled from the spec: one full orchestrator run after matching. -/
def orchestrate (attempt : MatchResult → Nat → AttemptOutcome)
    (maxRepair : Nat) (ranked : List MatchResult) : OrchestratorOutcome :=
  orchestrateFrom attempt maxRepair ranked none

/-! ## The concrete pattern files' structured metadata

One record per pattern document shipped in the repository, transcribing the
machine-readable parts of its header: the `PATTERN:` title, the
`@output-dir` / `@file-naming` tags (when present), the `DEMONSTRATES`
bullet lines, and whether a code body follows the header.  The code bodies
themselves are embedded elsewhere in this file where a claim depends on
them; for catalog parsing only their presence matters. -/

/-- Transcribed header metadata of one pattern document. -/
structure PatternDoc where
  name : String
  title : String
  hasOutputDirTag : Bool
  fileNamingTag : Option String
  headerBullets : List String
  hasCodeBody : Bool
deriving DecidableEq

/-- patterns/javascript/express/routes/delete-user-auth.js -/
def docDeleteUserRoute : PatternDoc :=
  { name := "routes/delete-user-auth.js",
    title := "Express DELETE Route with Authentication",
    hasOutputDirTag := true,
    fileNamingTag := some "{resource}.js",
    headerBullets :=
      ["JWT authentication middleware",
       "URL parameter extraction (/:id)",
       "Parameterized SQL queries (SQL injection safe)",
       "Error handling with try/catch",
       "Proper HTTP status codes (200, 400, 401, 404, 500)",
       "Soft delete vs hard delete options",
       "Returning confirmation of deletion"],
    hasCodeBody := true }

/-- patterns/javascript/express/routes/post-users-auth.js -/
def docPostUsersRoute : PatternDoc :=
  { name := "routes/post-users-auth.js",
    title := "Express POST Route with Authentication and Validation",
    hasOutputDirTag := true,
    fileNamingTag := some "{resource}.js",
    headerBullets :=
      ["JWT authentication middleware",
       "Request body validation",
       "Parameterized SQL queries (SQL injection safe)",
       "Error handling with try/catch",
       "Proper HTTP status codes (201, 400, 401, 409, 500)",
       "Preventing duplicate entries",
       "Returning created resource with ID"],
    hasCodeBody := true }

/-- patterns/javascript/express/routes/put-user-auth.js — note: this header
carries no `@output-dir` / `@file-naming` tags. -/
def docPutUserRoute : PatternDoc :=
  { name := "routes/put-user-auth.js",
    title := "Express PUT Route with Authentication and Validation",
    hasOutputDirTag := false,
    fileNamingTag := none,
    headerBullets :=
      ["JWT authentication middleware",
       "URL parameter extraction (/:id)",
       "Request body validation",
       "Parameterized SQL queries (SQL injection safe)",
       "Error handling with try/catch",
       "Proper HTTP status codes (200, 400, 401, 404, 409, 500)",
       "Preventing duplicate entries",
       "Returning updated resource"],
    hasCodeBody := true }

/-- db/connection.js -/
def docDbConnection : PatternDoc :=
  { name := "db/connection.js",
    title := "PostgreSQL Database Connection",
    hasOutputDirTag := true,
    fileNamingTag := some "connection.js",
    headerBullets := [],
    hasCodeBody := true }

/-- api/middleware/auth.js -/
def docAuthMiddleware : PatternDoc :=
  { name := "middleware/auth.js",
    title := "JWT Authentication Middleware",
    hasOutputDirTag := true,
    fileNamingTag := some "auth.js",
    headerBullets :=
      ["JWT token verification",
       "Bearer token extraction",
       "Error handling for invalid/missing tokens",
       "Adding decoded user to req.user"],
    hasCodeBody := true }

/-- queries (create pattern) — `createUser`. -/
def docCreateQuery : PatternDoc :=
  { name := "queries/create.js",
    title := "Create Query Function",
    hasOutputDirTag := true,
    fileNamingTag := some "{resource}.queries.js",
    headerBullets := [],
    hasCodeBody := true }

/-- queries (get-all pattern) — `getUsers`. -/
def docGetAllQuery : PatternDoc :=
  { name := "queries/get-all.js",
    title := "Get All Query Function",
    hasOutputDirTag := true,
    fileNamingTag := some "{resource}.queries.js",
    headerBullets := [],
    hasCodeBody := true }

/-- queries (get-by-field pattern) — `getUsersByEmail`. -/
def docGetByFieldQuery : PatternDoc :=
  { name := "queries/get-by-field.js",
    title := "Get By Field Query Function",
    hasOutputDirTag := true,
    fileNamingTag := some "{resource}.queries.js",
    headerBullets := [],
    hasCodeBody := true }

/-- queries (get-by-id-with-join pattern) — `getOrderByIdWithDetails`. -/
def docGetByIdWithJoinQuery : PatternDoc :=
  { name := "queries/get-by-id-with-join.js",
    title := "Get By ID With Join Query Function",
    hasOutputDirTag := true,
    fileNamingTag := some "{resource}.queries.js",
    headerBullets := [],
    hasCodeBody := true }

/-- Patterns/Javascript/Express/Routes/get-users-auth.js (list route). -/
def docGetUsersRoute : PatternDoc :=
  { name := "routes/get-users-auth.js",
    title := "Express GET Route with Authentication and Pagination",
    hasOutputDirTag := true,
    fileNamingTag := some "{resource}.js",
    headerBullets :=
      ["JWT authentication middleware",
       "Pagination with page and limit parameters",
       "Parameterized SQL queries (SQL injection safe)",
       "Error handling with try/catch",
       "Proper HTTP status codes (200, 401, 500)",
       "Not exposing sensitive data (passwords, tokens)",
       "Pagination metadata in response"],
    hasCodeBody := true }

/-- patterns/javascript/express/routes/get-user-by-id-auth.js — note: this
header carries no `@output-dir` / `@file-naming` tags. -/
def docGetUserByIdRoute : PatternDoc :=
  { name := "routes/get-user-by-id-auth.js",
    title := "Express GET by ID Route with Authentication",
    hasOutputDirTag := false,
    fileNamingTag := none,
    headerBullets :=
      ["JWT authentication middleware",
       "URL parameter extraction (/:id)",
       "Parameterized SQL queries (SQL injection safe)",
       "Error handling with try/catch",
       "Proper HTTP status codes (200, 401, 404, 500)",
       "Not exposing sensitive data (passwords, tokens)",
       "Handling resource not found"],
    hasCodeBody := true }

/-- Patterns/Javascript/Express/database/schema.sql -/
def docSchemaSql : PatternDoc :=
  { name := "database/schema.sql",
    title := "PostgreSQL Table Schema",
    hasOutputDirTag := true,
    fileNamingTag := some "schema.sql",
    headerBullets := [],
    hasCodeBody := true }

/-- db/seeds pattern — `seedUsers`. -/
def docSeedFile : PatternDoc :=
  { name := "db/seeds/users.seed.js",
    title := "Database Seed File",
    hasOutputDirTag := true,
    fileNamingTag := some "{resource}.seed.js",
    headerBullets :=
      ["Async seeding with proper error handling",
       "Parameterized INSERT queries",
       "Sample data generation",
       "Console logging for feedback"],
    hasCodeBody := true }

/-- queries/delete.js — `deleteUser`. -/
def docDeleteQuery : PatternDoc :=
  { name := "queries/delete.js",
    title := "Delete Query Function",
    hasOutputDirTag := true,
    fileNamingTag := some "{resource}.queries.js",
    headerBullets := [],
    hasCodeBody := true }

/-- queries/get-by-field-with-join.js — `getOrdersByCustomerIdWithDetails`. -/
def docGetByFieldWithJoinQuery : PatternDoc :=
  { name := "queries/get-by-field-with-join.js",
    title := "Get By Field With Join Query Function",
    hasOutputDirTag := true,
    fileNamingTag := some "{resource}.queries.js",
    headerBullets := [],
    hasCodeBody := true }

/-- queries/get-by-id.js — `getUserById`. -/
def docGetByIdQuery : PatternDoc :=
  { name := "queries/get-by-id.js",
    title := "Get By ID Query Function",
    hasOutputDirTag := true,
    fileNamingTag := some "{resource}.queries.js",
    headerBullets := [],
    hasCodeBody := true }

/-- queries/get-with-joins.js — `getOrdersWithDetails`. -/
def docGetWithJoinsQuery : PatternDoc :=
  { name := "queries/get-with-joins.js",
    title := "Get With Join Query Function",
    hasOutputDirTag := true,
    fileNamingTag := some "{resource}.queries.js",
    headerBullets := [],
    hasCodeBody := true }

/-- queries/update.js — `updateUser`. -/
def docUpdateQuery : PatternDoc :=
  { name := "queries/update.js",
    title := "Update Query Function",
    hasOutputDirTag := true,
    fileNamingTag := some "{resource}.queries.js",
    headerBullets := [],
    hasCodeBody := true }

/-- Every concrete pattern document shipped in the repository. -/
def lysitheaPatternDocs : List PatternDoc :=
  [docDeleteUserRoute, docPostUsersRoute, docPutUserRoute, docDbConnection,
   docAuthMiddleware, docCreateQuery, docGetAllQuery, docGetByFieldQuery,
   docGetByIdWithJoinQuery, docGetUsersRoute, docGetUserByIdRoute,
   docSchemaSql, docSeedFile, docDeleteQuery, docGetByFieldWithJoinQuery,
   docGetByIdQuery, docGetWithJoinsQuery, docUpdateQuery]

/-! ## Catalog entry parsing (spec §6)

Modelled from the spec: the Catalog's parsing of a pattern source file is
not among the repository's source files; §6 requires that each file exposes
enough structured metadata to parse `domain`, `operation`, `capabilities`,
`template` and `slots`.  The parser below derives them from the transcribed
header metadata. -/

/-- Substring test. -/
def containsSub (s pat : String) : Bool :=
  containsSeq pat.data s.data

/-- Lower-cased words of a title line. -/
def titleWords (t : String) : List String :=
  jsSplit (lowerStr t) ' '

/-- Modelled from the spec: the implied domain of a pattern, read off the
recognized kind keyword of its `PATTERN:` title; `none` when no kind keyword
is recognized. -/
def classifyDomain (ws : List String) : Option String :=
  if ws.contains "route" then some "http-route"
  else if ws.contains "middleware" then some "middleware"
  else if ws.contains "query" then some "sql-query"
  else if ws.contains "schema" then some "sql-schema"
  else if ws.contains "connection" then some "db-connection"
  else if ws.contains "seed" then some "db-seed"
  else none

/-- Modelled from the spec: keyword/verb classification of the operation
(§4.2's mapping, applied to the title words). -/
def classifyOperation (ws : List String) : Operation :=
  if ws.contains "post" || ws.contains "create" then .create
  else if ws.contains "put" || ws.contains "update" then .update
  else if ws.contains "delete" then .delete
  else if (ws.contains "get" || ws.contains "fetch") && ws.contains "id" then .readOne
  else if ws.contains "get" || ws.contains "list" || ws.contains "fetch" then .readMany
  else if ws.contains "authentication" || ws.contains "auth" then .auth
  else .other

/-- Keyword whose presence in a header bullet declares a capability. -/
def capKeyword : Capability → String
  | .authRequired => "authentication"
  | .pagination => "pagination"
  | .parameterizedSql => "parameterized"
  | .duplicateCheck => "duplicate"
  | .softDelete => "soft delete"
  | .errorHandling => "error handling"

/-- All capability tags, in a fixed order. -/
def allCapabilities : List Capability :=
  [.authRequired, .pagination, .parameterizedSql, .duplicateCheck,
   .softDelete, .errorHandling]

/-- Capabilities a document's header bullets declare. -/
def detectCapabilities (bullets : List String) : List Capability :=
  allCapabilities.filter
    (fun c => bullets.any (fun b => containsSub (lowerStr b) (capKeyword c)))

/-- A parsed catalog entry: the five fields §6 requires.  The template body
is identified by the document it was read from (`templateRef`); parsing it
requires a nonempty code body. -/
structure CatalogEntry where
  domain : String
  operation : Operation
  capabilities : List Capability
  templateRef : String
  slots : List String
deriving DecidableEq

/-- Modelled from the spec: parse one pattern document into a catalog entry.
Fails when the document has no `PATTERN:` title (domain and operation are
unreadable), when its title matches no recognized domain kind, or when no
code body follows the header.  The declared slots are the placeholders of
the `@file-naming` tag (none declared when the tag is absent). -/
def parseCatalogEntry (d : PatternDoc) : Option CatalogEntry :=
  if d.title = "" || !d.hasCodeBody then none
  else
    (classifyDomain (titleWords d.title)).map fun dom =>
      { domain := dom,
        operation := classifyOperation (titleWords d.title),
        capabilities := detectCapabilities d.headerBullets,
        templateRef := d.name,
        slots := (d.fileNamingTag.map (fun v => slotsReferenced v)).getD [] }

/-! # Claim theorems -/

/-- Claim C9: for every request through `authenticateToken`: with no bearer
token it responds 401 with code MISSING_TOKEN and does not call `next()`;
with a token that fails verification it responds 403 (not 401) with code
INVALID_TOKEN and does not call `next()`; only on successful verification
does it set `req.user` to the decoded payload and call `next()`. -/
theorem c9_authenticateToken_cases {P : Type}
    (verify : String → VerifyResult P) (h : Option String) :
    (extractBearer h = none →
      (authenticateToken verify h).status = some 401
        ∧ (authenticateToken verify h).errorCode = some "MISSING_TOKEN"
        ∧ (authenticateToken verify h).nextCalled = false)
    ∧ (∀ tok, extractBearer h = some tok → verify tok = .fail →
      (authenticateToken verify h).status = some 403
        ∧ (authenticateToken verify h).errorCode = some "INVALID_TOKEN"
        ∧ (authenticateToken verify h).nextCalled = false)
    ∧ (∀ tok p, extractBearer h = some tok → verify tok = .ok p →
      (authenticateToken verify h).reqUser = some p
        ∧ (authenticateToken verify h).status = none
        ∧ (authenticateToken verify h).errorCode = none
        ∧ (authenticateToken verify h).nextCalled = true) := by
  refine ⟨fun hN => ?_, fun tok hS hF => ?_, fun tok p hS hOk => ?_⟩
  · simp [authenticateToken, hN]
  · simp [authenticateToken, hS, hF]
  · simp [authenticateToken, hS, hOk]

/-- Concrete instantiation of `c9_authenticateToken_cases`: a missing
header, a rejected token and an accepted token. -/
theorem c9_authenticateToken_cases_witness :
    (authenticateToken (P := Nat)
        (fun t => if t = "good" then .ok 0 else .fail) none).status = some 401
    ∧ (authenticateToken (P := Nat)
        (fun t => if t = "good" then .ok 0 else .fail)
        (some "Bearer bad")).status = some 403
    ∧ (authenticateToken (P := Nat)
        (fun t => if t = "good" then .ok 0 else .fail)
        (some "Bearer good")).nextCalled = true :=
  ⟨((c9_authenticateToken_cases (P := Nat)
      (fun t => if t = "good" then .ok 0 else .fail) none).1 (by decide)).1,
   ((c9_authenticateToken_cases (P := Nat)
      (fun t => if t = "good" then .ok 0 else .fail) (some "Bearer bad")).2.1
      "bad" (by decide) (by decide)).1,
   ((c9_authenticateToken_cases (P := Nat)
      (fun t => if t = "good" then .ok 0 else .fail) (some "Bearer good")).2.2
      "good" 0 (by decide) (by decide)).2.2.2⟩

/-- Claim C6: in the read-many route, an absent or non-numeric `limit`
yields the default 20; the effective limit never exceeds 100; the offset
bound to the query is `(page - 1) * limit`; and every 200 response carries a
`pagination` field. -/
theorem c6_get_users_pagination {P : Type} (verify : String → VerifyResult P)
    (h : Option String) (pageQ limitQ : Option String)
    (dbRows : Option (List UserRow)) (dbTotal : Option Int) :
    (jsParseIntOpt limitQ = none → getUsersLimit limitQ = 20)
    ∧ getUsersLimit limitQ ≤ 100
    ∧ getUsersOffset pageQ limitQ = (getUsersPage pageQ - 1) * getUsersLimit limitQ
    ∧ ((getUsersRoute verify h pageQ limitQ dbRows dbTotal).status = 200 →
        (getUsersRoute verify h pageQ limitQ dbRows dbTotal).pagination.isSome = true) := by
  refine ⟨fun hN => ?_, min_le_right _ _, rfl, fun h200 => ?_⟩
  · simp [getUsersLimit, jsOrInt, hN]
  · unfold getUsersRoute at h200 ⊢
    rcases hB : extractBearer h with _ | tok
    · simp [authenticateToken, hB] at h200
    · rcases hV : verify tok with p | _
      · simp only [authenticateToken, hB, hV, ite_true] at h200 ⊢
        rcases dbRows with _ | rows <;> rcases dbTotal with _ | total <;>
          simp [getUsersHandler] at h200 ⊢
      · simp [authenticateToken, hB, hV] at h200

/-- Concrete instantiation of `c6_get_users_pagination`: an authenticated
request with no `limit` parameter gets the default 20 and a 200 response
carrying pagination. -/
theorem c6_get_users_pagination_witness :
    getUsersLimit none = 20
    ∧ (getUsersRoute (P := Nat) (fun _ => .ok 0) (some "Bearer t")
        (some "2") none (some []) (some 0)).pagination.isSome = true :=
  ⟨(c6_get_users_pagination (P := Nat) (fun _ => .ok 0) (some "Bearer t")
      (some "2") none (some []) (some 0)).1 rfl,
   (c6_get_users_pagination (P := Nat) (fun _ => .ok 0) (some "Bearer t")
      (some "2") none (some []) (some 0)).2.2.2 (by decide)⟩

/-- Claim C10: the limit computation `Math.min(parseInt(...) || 20, 100)`
enforces only an upper bound: `limit=-5` binds a negative LIMIT value,
`limit=0` falls through to the default 20 via falsiness, and a negative
page yields a negative OFFSET. -/
theorem c10_limit_lower_bound_unenforced :
    getUsersLimit (some "-5") = -5
    ∧ getUsersLimit (some "-5") < 0
    ∧ (qRouteListUsers ⟨none, none, none, "", some "1", some "-5", 0⟩).2
        = [SqlValue.int (-5), SqlValue.int 0]
    ∧ getUsersLimit (some "0") = 20
    ∧ getUsersOffset (some "-3") (some "10") = -40
    ∧ getUsersOffset (some "-3") (some "10") < 0 := by
  decide

/-- Claim C1: every concrete pattern document in the repository parses into
a full catalog entry — a domain, an operation, a capability set, a template
body and a declared slot list are all recoverable from the file alone. -/
theorem c1_pattern_files_are_valid_catalog_entries :
    ∀ d ∈ lysitheaPatternDocs, (parseCatalogEntry d).isSome = true := by
  decide

/-- Concrete instantiation of `c1_pattern_files_are_valid_catalog_entries`
at the schema pattern document. -/
theorem c1_pattern_files_are_valid_catalog_entries_witness :
    docSchemaSql ∈ lysitheaPatternDocs
      ∧ (parseCatalogEntry docSchemaSql).isSome = true :=
  ⟨by decide, c1_pattern_files_are_valid_catalog_entries docSchemaSql (by decide)⟩

/-- Claim C3: for every `validate(artifact, required_capabilities)` call
with a non-empty required set, the report's score equals the number of
satisfied required capabilities divided by the number of required
capabilities, and `passed` holds iff the score is 1. -/
theorem c3_validator_score_law (detect : String → Capability → Bool)
    (a : AdaptedArtifact) (required : List Capability) (hne : required ≠ []) :
    (validate detect a required).score
        = ((required.filter (fun c => detect a.body c)).length : ℚ)
            / (required.length : ℚ)
    ∧ ((validate detect a required).passed = true
        ↔ (validate detect a required).score = 1) := by
  have hempty : required.isEmpty = false := by
    simpa [List.isEmpty_iff] using hne
  constructor
  · simp [validate, hempty]
  · simp [validate, hempty]

/-- Concrete instantiation of `c3_validator_score_law`: one required
capability, detector satisfied. -/
theorem c3_validator_score_law_witness :
    (validate (fun _ _ => true) ⟨"p", "b", []⟩ [Capability.authRequired]).score
        = (([Capability.authRequired].filter
            (fun c => (fun _ _ => true) "b" c)).length : ℚ)
          / (([Capability.authRequired] : List Capability).length : ℚ)
    ∧ ((validate (fun _ _ => true) ⟨"p", "b", []⟩ [Capability.authRequired]).passed = true
        ↔ (validate (fun _ _ => true) ⟨"p", "b", []⟩ [Capability.authRequired]).score = 1) :=
  c3_validator_score_law (fun _ _ => true) ⟨"p", "b", []⟩ [Capability.authRequired]
    (by decide)

/-- Claim C4: in every successfully loaded catalog, each pattern's template
references exactly the declared slots — every referenced slot is declared
and every declared slot is referenced at least once (round-trip integrity,
checked at load time). -/
theorem c4_loaded_catalog_slot_integrity (ps cat : List PatternRecord)
    (hok : loadCatalog ps = Except.ok cat) :
    ∀ p ∈ cat, (∀ s ∈ slotsReferenced p.template, s ∈ p.slots)
      ∧ (∀ s ∈ p.slots, s ∈ slotsReferenced p.template) := by
  unfold loadCatalog at hok
  split at hok
  case isTrue hc =>
    cases hok
    intro p hp
    have hall : ps.all slotsOk = true := by
      simp only [Bool.and_eq_true] at hc
      exact hc.1
    have hp' := (List.all_eq_true.mp hall) p hp
    exact of_decide_eq_true hp'
  case isFalse => cases hok

/-- A catalog that the loader accepts, with the schema pattern of the
repository rewritten so its declared slot list matches its template. -/
def c4ExampleCatalog : List PatternRecord :=
  [{ pid := "sql-schema-1", domain := "sql-schema", operation := .other,
     capabilities := [],
     template := "CREATE TABLE IF NOT EXISTS {resource} (id SERIAL PRIMARY KEY)",
     slots := ["resource"] }]

/-- Concrete instantiation of `c4_loaded_catalog_slot_integrity` at a
loadable one-pattern catalog. -/
theorem c4_loaded_catalog_slot_integrity_witness :
    loadCatalog c4ExampleCatalog = Except.ok c4ExampleCatalog
    ∧ ∀ p ∈ c4ExampleCatalog,
        (∀ s ∈ slotsReferenced p.template, s ∈ p.slots)
          ∧ (∀ s ∈ p.slots, s ∈ slotsReferenced p.template) :=
  ⟨rfl, c4_loaded_catalog_slot_integrity c4ExampleCatalog c4ExampleCatalog rfl⟩

/-- The SQL text built by the PUT route's dynamic UPDATE assembler depends
only on which fields are present, never on the request-derived values. -/
theorem buildUpdateQuery_sql_shape (e₁ u₁ : Option String) (i₁ : Int)
    (e₂ u₂ : Option String) (i₂ : Int)
    (he : jsTruthyStr e₁ = jsTruthyStr e₂) (hu : jsTruthyStr u₁ = jsTruthyStr u₂) :
    (buildUpdateQuery e₁ u₁ i₁).1 = (buildUpdateQuery e₂ u₂ i₂).1 := by
  cases h₁ : jsTruthyStr e₁ <;> cases h₂ : jsTruthyStr u₁ <;>
    simp [buildUpdateQuery, h₁, h₂, he.symm.trans h₁, hu.symm.trans h₂]

/-- Claim C5: for every SQL statement issued by any route/query pattern, the
SQL text is independent of request-derived values (no concatenation or
interpolation of a request value into a clause), and every request-derived
value is passed as a positional bound parameter — including the dynamically
assembled UPDATE, whose bound parameter list is exactly the provided fields
followed by the user id. -/
theorem c5_all_queries_parameterized :
    (∀ q ∈ catalogIssuedQueries, ∀ v w : ReqVals, sameShape v w →
      (q v).1 = (q w).1)
    ∧ ∀ (email username : Option String) (userId : Int),
        (buildUpdateQuery email username userId).2 =
          (if jsTruthyStr email then [SqlValue.str (jsStrVal email)] else [])
            ++ (if jsTruthyStr username then [SqlValue.str (jsStrVal username)] else [])
            ++ [SqlValue.int userId] := by
  constructor
  · intro q hq v w hvw
    simp only [catalogIssuedQueries, List.mem_cons, List.not_mem_nil, or_false] at hq
    rcases hq with rfl | rfl | rfl | rfl | rfl | rfl | rfl | rfl | rfl | rfl
      | rfl | rfl | rfl | rfl | rfl | rfl | rfl | rfl | rfl
    all_goals first
      | rfl
      | exact buildUpdateQuery_sql_shape v.email v.username _
          w.email w.username _ hvw.1 hvw.2
  · intro e u i
    cases h₁ : jsTruthyStr e <;> cases h₂ : jsTruthyStr u <;>
      simp [buildUpdateQuery, h₁, h₂]

/-- Concrete instantiation of `c5_all_queries_parameterized`: two PUT
requests with different emails but identical shape produce the same SQL
text. -/
theorem c5_all_queries_parameterized_witness :
    sameShape ⟨some "a@b.co", none, none, "1", none, none, 0⟩
        ⟨some "x@y.co", none, none, "2", none, none, 0⟩
    ∧ (qRoutePutUpdate ⟨some "a@b.co", none, none, "1", none, none, 0⟩).1
        = (qRoutePutUpdate ⟨some "x@y.co", none, none, "2", none, none, 0⟩).1 :=
  ⟨⟨rfl, rfl⟩,
   c5_all_queries_parameterized.1 qRoutePutUpdate (by simp [catalogIssuedQueries])
     ⟨some "a@b.co", none, none, "1", none, none, 0⟩
     ⟨some "x@y.co", none, none, "2", none, none, 0⟩ ⟨rfl, rfl⟩⟩

/-- Claim C7: in the create (POST) and update (PUT) route patterns, every
mutation is preceded in the query trace by an existence query on the
uniquely-constrained fields, and when a duplicate is found the response is
409, the mutation is never executed, and the stored state is unchanged. -/
theorem c7_duplicate_check_guards_mutations (db : List UserRow) (newId : Nat)
    (e u p : Option String) (idp : String) (e₂ u₂ : Option String) :
    mutationsGuarded (postUsersHandler db newId e u p).trace = true
    ∧ mutationsGuarded (putUserHandler db idp e₂ u₂).trace = true
    ∧ (jsTruthyStr e = true → jsTruthyStr u = true → jsTruthyStr p = true →
        emailRegexTest (jsStrVal e) = true → ¬(jsStrVal p).length < 8 →
        0 < (db.filter
          (fun r => r.email = jsStrVal e ∨ r.username = jsStrVal u)).length →
        (postUsersHandler db newId e u p).status = 409
          ∧ (postUsersHandler db newId e u p).errorCode = some "DUPLICATE_USER"
          ∧ (postUsersHandler db newId e u p).db = db
          ∧ (postUsersHandler db newId e u p).trace.all
              (fun op => ! op.isMutation) = true)
    ∧ (∀ userId : Int, jsParseInt idp = some userId →
        (jsTruthyStr e₂ = true ∨ jsTruthyStr u₂ = true) →
        (jsTruthyStr e₂ = true → emailRegexTest (jsStrVal e₂) = true) →
        (db.filter (fun r => (r.uid : Int) = userId)).length ≠ 0 →
        0 < (db.filter (fun r =>
          (r.email = jsOrStr e₂ "" ∨ r.username = jsOrStr u₂ "")
            ∧ (r.uid : Int) ≠ userId)).length →
        (putUserHandler db idp e₂ u₂).status = 409
          ∧ (putUserHandler db idp e₂ u₂).errorCode = some "DUPLICATE_USER"
          ∧ (putUserHandler db idp e₂ u₂).db = db
          ∧ (putUserHandler db idp e₂ u₂).trace.all
              (fun op => ! op.isMutation) = true) := by
  refine ⟨?_, ?_, ?_, ?_⟩
  · simp only [postUsersHandler]
    repeat' split
    all_goals
      simp [mutationsGuarded, mutationsGuardedAux, DbOp.isMutation,
        DbOp.isExistenceCheck]
  · simp only [putUserHandler]
    repeat' split
    all_goals
      simp [mutationsGuarded, mutationsGuardedAux, DbOp.isMutation,
        DbOp.isExistenceCheck]
  · intro he hu hp hre hlen hdup
    have hl8 : (jsStrVal p).length < 8 ↔ False := iff_false_intro hlen
    have hdup' : 0 < (db.filter (fun r =>
        decide (r.email = jsStrVal e) || decide (r.username = jsStrVal u))).length := by
      simpa using hdup
    simp [postUsersHandler, he, hu, hp, hre, hl8, hdup', DbOp.isMutation]
  · intro userId hid he₂u₂ hre₂ hexists hdup
    have hcond : (!jsTruthyStr e₂ && !jsTruthyStr u₂) = false := by
      rcases he₂u₂ with h | h <;> simp [h]
    have hval : (jsTruthyStr e₂ && !emailRegexTest (jsStrVal e₂)) = false := by
      cases hE : jsTruthyStr e₂
      · simp
      · simp [hre₂ hE]
    have hor : (jsTruthyStr e₂ || jsTruthyStr u₂) = true := by
      rcases he₂u₂ with h | h <;> simp [h]
    have hdup' : 0 < (db.filter (fun r =>
        (decide (r.email = jsOrStr e₂ "") || decide (r.username = jsOrStr u₂ ""))
          && !decide ((r.uid : Int) = userId))).length := by
      simpa using hdup
    simp [putUserHandler, hid, hcond, hval, hexists, hdup', hor, DbOp.isMutation]

/-- Concrete instantiation of `c7_duplicate_check_guards_mutations`: a POST
reusing an existing email and a PUT moving a user onto an existing email
both get 409 with the table unchanged. -/
theorem c7_duplicate_check_guards_mutations_witness :
    (postUsersHandler
        [⟨1, "a@b.co", "alice", "h", false⟩, ⟨2, "c@d.co", "bob", "h", false⟩]
        3 (some "a@b.co") (some "carol") (some "password1")).status = 409
    ∧ (postUsersHandler
        [⟨1, "a@b.co", "alice", "h", false⟩, ⟨2, "c@d.co", "bob", "h", false⟩]
        3 (some "a@b.co") (some "carol") (some "password1")).db
        = [⟨1, "a@b.co", "alice", "h", false⟩, ⟨2, "c@d.co", "bob", "h", false⟩]
    ∧ (putUserHandler
        [⟨1, "a@b.co", "alice", "h", false⟩, ⟨2, "c@d.co", "bob", "h", false⟩]
        "2" (some "a@b.co") none).status = 409
    ∧ (putUserHandler
        [⟨1, "a@b.co", "alice", "h", false⟩, ⟨2, "c@d.co", "bob", "h", false⟩]
        "2" (some "a@b.co") none).db
        = [⟨1, "a@b.co", "alice", "h", false⟩, ⟨2, "c@d.co", "bob", "h", false⟩] := by
  have h := c7_duplicate_check_guards_mutations
    [⟨1, "a@b.co", "alice", "h", false⟩, ⟨2, "c@d.co", "bob", "h", false⟩]
    3 (some "a@b.co") (some "carol") (some "password1") "2" (some "a@b.co") none
  have hpost := h.2.2.1 (by decide) (by decide) (by decide) (by decide)
    (by decide) (by decide)
  have hput := h.2.2.2 2 (by decide) (Or.inl (by decide)) (fun _ => by decide)
    (by decide) (by decide)
  exact ⟨hpost.1, hpost.2.2.1, hput.1, hput.2.2.1⟩

/-- Claim C8: ranking is deterministic — identical `(query, catalog)` pairs
yield the identical ordered `MatchResult` sequence — and the output is
totally ordered by score descending with ties broken by exact operation
match, then fewer missing capabilities, then catalog insertion order. -/
theorem c8_rank_deterministic_and_totally_ordered
    (q₁ q₂ : RequestQuery) (c₁ c₂ : List PatternRecord)
    (hq : q₁ = q₂) (hc : c₁ = c₂) :
    rank q₁ c₁ = rank q₂ c₂
    ∧ List.Sorted rankLE (rank q₁ c₁)
    ∧ ∀ a b : MatchResult, rankLE a b ↔
        (b.score < a.score
          ∨ (a.score = b.score
              ∧ ((a.exactOp = true ∧ b.exactOp = false)
                ∨ (a.exactOp = b.exactOp
                    ∧ (a.missingCapabilities.length < b.missingCapabilities.length
                      ∨ (a.missingCapabilities.length
                            = b.missingCapabilities.length
                          ∧ a.idx ≤ b.idx)))))) := by
  subst hq; subst hc
  refine ⟨rfl, List.sorted_insertionSort rankLE _, fun a b => ?_⟩
  unfold rankLE rankKey
  rw [Prod.Lex.le_iff, Prod.Lex.le_iff, Prod.Lex.le_iff]
  cases hA : a.exactOp <;> cases hB : b.exactOp <;>
    simp [neg_lt_neg_iff, neg_inj, hA, hB]

/-- Concrete instantiation of `c8_rank_deterministic_and_totally_ordered`:
a two-pattern catalog and a read-many query. -/
theorem c8_rank_deterministic_and_totally_ordered_witness :
    rank ⟨"products", .readMany, [.pagination], "http-route"⟩
        [⟨"p2", "http-route", .readOne, [.authRequired], "t", []⟩,
         ⟨"p1", "http-route", .readMany, [.authRequired, .pagination], "t", []⟩]
      = rank ⟨"products", .readMany, [.pagination], "http-route"⟩
        [⟨"p2", "http-route", .readOne, [.authRequired], "t", []⟩,
         ⟨"p1", "http-route", .readMany, [.authRequired, .pagination], "t", []⟩]
    ∧ List.Sorted rankLE
        (rank ⟨"products", .readMany, [.pagination], "http-route"⟩
          [⟨"p2", "http-route", .readOne, [.authRequired], "t", []⟩,
           ⟨"p1", "http-route", .readMany, [.authRequired, .pagination], "t", []⟩]) :=
  ⟨(c8_rank_deterministic_and_totally_ordered
      ⟨"products", .readMany, [.pagination], "http-route"⟩
      ⟨"products", .readMany, [.pagination], "http-route"⟩
      [⟨"p2", "http-route", .readOne, [.authRequired], "t", []⟩,
       ⟨"p1", "http-route", .readMany, [.authRequired, .pagination], "t", []⟩]
      [⟨"p2", "http-route", .readOne, [.authRequired], "t", []⟩,
       ⟨"p1", "http-route", .readMany, [.authRequired, .pagination], "t", []⟩]
      rfl rfl).1,
   (c8_rank_deterministic_and_totally_ordered
      ⟨"products", .readMany, [.pagination], "http-route"⟩
      ⟨"products", .readMany, [.pagination], "http-route"⟩
      [⟨"p2", "http-route", .readOne, [.authRequired], "t", []⟩,
       ⟨"p1", "http-route", .readMany, [.authRequired, .pagination], "t", []⟩]
      [⟨"p2", "http-route", .readOne, [.authRequired], "t", []⟩,
       ⟨"p1", "http-route", .readMany, [.authRequired, .pagination], "t", []⟩]
      rfl rfl).2.1⟩

/-- `betterOf` is a score upper bound of its first argument. -/
theorem betterOf_left (x y : AttemptOutcome) :
    x.report.score ≤ (betterOf x y).report.score := by
  unfold betterOf
  split
  · exact le_of_lt (by assumption)
  · exact le_refl _

/-- `betterOf` is a score upper bound of its second argument. -/
theorem betterOf_right (x y : AttemptOutcome) :
    y.report.score ≤ (betterOf x y).report.score := by
  unfold betterOf
  split
  · exact le_refl _
  · exact le_of_not_lt (by assumption)

/-- Folding `updBest` over attempts never loses the tracked best. -/
theorem foldl_updBest_isSome (l : List AttemptOutcome) (b : Option AttemptOutcome)
    (h : b.isSome = true ∨ l ≠ []) : ∃ y, l.foldl updBest b = some y := by
  induction l generalizing b with
  | nil =>
      rcases h with hb | hne
      · cases b with
        | none => simp at hb
        | some x => exact ⟨x, rfl⟩
      · exact absurd rfl hne
  | cons a l ih =>
      cases b with
      | none => exact ih (some a) (Or.inl rfl)
      | some x => exact ih (some (betterOf x a)) (Or.inl rfl)

/-- The outcome tracked by folding `updBest` score-dominates every folded
attempt and the initial best. -/
theorem foldl_updBest_le (l : List AttemptOutcome) :
    ∀ (b : Option AttemptOutcome) (y : AttemptOutcome),
      l.foldl updBest b = some y →
      (∀ x ∈ l, x.report.score ≤ y.report.score)
        ∧ (∀ z, b = some z → z.report.score ≤ y.report.score) := by
  induction l with
  | nil =>
      intro b y h
      refine ⟨by simp, fun z hz => ?_⟩
      rw [hz] at h
      cases h
      exact le_refl _
  | cons a l ih =>
      intro b y h
      rw [List.foldl_cons] at h
      obtain ⟨h1, h2⟩ := ih (updBest b a) y h
      have ha : a.report.score ≤ y.report.score := by
        cases b with
        | none => exact h2 a rfl
        | some z => exact le_trans (betterOf_right z a) (h2 (betterOf z a) rfl)
      refine ⟨fun x hx => ?_, fun z hz => ?_⟩
      · rcases List.mem_cons.mp hx with rfl | hx'
        · exact ha
        · exact h1 x hx'
      · subst hz
        exact le_trans (betterOf_left z a) (h2 (betterOf z a) rfl)

/-- An `accepted` terminal outcome always carries a passing report. -/
theorem orchestrateFrom_accepted_passed
    (attempt : MatchResult → Nat → AttemptOutcome) (maxR : Nat) :
    ∀ (rs : List MatchResult) (best : Option AttemptOutcome) (o : AttemptOutcome),
      orchestrateFrom attempt maxR rs best = .accepted o →
      o.report.passed = true := by
  intro rs
  induction rs with
  | nil =>
      intro best o h
      cases best <;> simp [orchestrateFrom] at h
  | cons m rest ih =>
      intro best o h
      rcases hf : (attemptsFor attempt maxR m).find? (fun o => o.report.passed)
        with _ | o'
      · simp only [orchestrateFrom, hf] at h
        exact ih _ o h
      · simp only [orchestrateFrom, hf] at h
        cases h
        have hp := List.find?_some hf
        simpa using hp

/-- When every attempt on every ranked pattern fails, the run terminates in
`exhausted` with an outcome score-dominating all attempts and the initial
best. -/
theorem orchestrateFrom_exhausted_best
    (attempt : MatchResult → Nat → AttemptOutcome) (maxR : Nat) :
    ∀ (rs : List MatchResult),
      (∀ m ∈ rs, ∀ i, i ≤ maxR → (attempt m i).report.passed = false) →
      ∀ (best : Option AttemptOutcome), (best.isSome = true ∨ rs ≠ []) →
      ∃ o, orchestrateFrom attempt maxR rs best = .exhausted o
        ∧ (∀ m ∈ rs, ∀ i, i ≤ maxR → (attempt m i).report.score ≤ o.report.score)
        ∧ (∀ z, best = some z → z.report.score ≤ o.report.score) := by
  intro rs
  induction rs with
  | nil =>
      intro _ best hne
      rcases hne with hb | hne'
      · cases b : best with
        | none => rw [b] at hb; simp at hb
        | some x =>
            refine ⟨x, rfl, by simp, fun z hz => ?_⟩
            cases hz
            exact le_refl _
      · exact absurd rfl hne'
  | cons m rest ih =>
      intro hfail best _
      have hfind : (attemptsFor attempt maxR m).find?
          (fun o => o.report.passed) = none := by
        rw [List.find?_eq_none]
        intro x hx
        simp only [attemptsFor, List.mem_map, List.mem_range] at hx
        obtain ⟨i, hi, rfl⟩ := hx
        simp [hfail m (List.mem_cons_self m rest) i (Nat.lt_succ_iff.mp hi)]
      have hAne : attemptsFor attempt maxR m ≠ [] := by
        simp [attemptsFor, List.range_eq_nil]
      obtain ⟨b', hb'⟩ :=
        foldl_updBest_isSome (attemptsFor attempt maxR m) best (Or.inr hAne)
      obtain ⟨o, ho, hrest, hb'le⟩ :=
        ih (fun m' hm' i hi => hfail m' (List.mem_cons_of_mem _ hm') i hi)
          (some b') (Or.inl rfl)
      refine ⟨o, ?_, ?_, ?_⟩
      · simp only [orchestrateFrom, hfind]
        rw [hb']
        exact ho
      · intro m' hm' i hi
        rcases List.mem_cons.mp hm' with rfl | hm''
        · have hmem : attempt m' i ∈ attemptsFor attempt maxR m' := by
            simp only [attemptsFor, List.mem_map, List.mem_range]
            exact ⟨i, Nat.lt_succ_of_le hi, rfl⟩
          exact le_trans ((foldl_updBest_le _ best b' hb').1 _ hmem) (hb'le b' rfl)
        · exact hrest m' hm'' i hi
      · intro z hz
        exact le_trans ((foldl_updBest_le _ best b' hb').2 z hz) (hb'le b' rfl)

/-- Claim C2: a non-passing artifact is never returned labeled `Accepted`;
when the ranked list is exhausted the terminal state is `Exhausted` and the
orchestrator returns the best-scoring artifact obtained so far together
with its report. -/
theorem c2_orchestrator_never_silently_accepts
    (attempt : MatchResult → Nat → AttemptOutcome) (maxRepair : Nat)
    (ranked : List MatchResult) :
    (∀ o, orchestrate attempt maxRepair ranked = .accepted o →
        o.report.passed = true)
    ∧ ((∀ m ∈ ranked, ∀ i, i ≤ maxRepair →
          (attempt m i).report.passed = false) →
        ranked ≠ [] →
        ∃ o, orchestrate attempt maxRepair ranked = .exhausted o
          ∧ ∀ m ∈ ranked, ∀ i, i ≤ maxRepair →
              (attempt m i).report.score ≤ o.report.score) := by
  constructor
  · exact fun o h =>
      orchestrateFrom_accepted_passed attempt maxRepair ranked none o h
  · intro hfail hne
    obtain ⟨o, ho, hsc, _⟩ :=
      orchestrateFrom_exhausted_best attempt maxRepair ranked hfail none
        (Or.inr hne)
    exact ⟨o, ho, hsc⟩

/-- Concrete instantiation of `c2_orchestrator_never_silently_accepts`: an
attempt function that passes immediately is accepted with a passing
report. -/
theorem c2_orchestrator_never_silently_accepts_witness :
    orchestrate
        (fun m _ => (⟨⟨m.patternId, "body", []⟩, ⟨true, 1, []⟩⟩ : AttemptOutcome))
        2 [⟨"p1", 1, [], true, 0⟩]
      = .accepted ⟨⟨"p1", "body", []⟩, ⟨true, 1, []⟩⟩
    ∧ (⟨⟨"p1", "body", []⟩, (⟨true, 1, []⟩ : ValidationReport)⟩
        : AttemptOutcome).report.passed = true :=
  ⟨rfl,
   (c2_orchestrator_never_silently_accepts
      (fun m _ => (⟨⟨m.patternId, "body", []⟩, ⟨true, 1, []⟩⟩ : AttemptOutcome))
      2 [⟨"p1", 1, [], true, 0⟩]).1
     ⟨⟨"p1", "body", []⟩, ⟨true, 1, []⟩⟩ rfl⟩

end Lysithea
